import Mathlib

/-!
Shallow embedding of the AgPipeline moving-transformer-hyperspectral
repository (transformer.py) and proofs about it.

Python strings that the code compares or rewrites character by character are
modelled as `String` (compared through an explicit code-point comparison,
matching the Python lexicographic order) or as `List Char` where the code
splits and rewrites them.  Numpy float arrays are modelled over `ℚ`; the
special not-a-number float written by `update_netcdf` is modelled by a
dedicated constructor of the `Val` type.  Fallible steps return `Except` or
`Option`.
-/

namespace Hyperspectral

/-! ### Python string primitives (code-point lexicographic order) -/

/-- Lexicographic code-point comparison of character lists, the order Python
uses for `str < str`. -/
def chars_lt : List Char → List Char → Bool
  | [], [] => false
  | [], _ :: _ => true
  | _ :: _, [] => false
  | a :: as, b :: bs =>
    if a.toNat < b.toNat then true
    else if b.toNat < a.toNat then false
    else chars_lt as bs

/-- Python `a < b` on strings. -/
def pystr_lt (a b : String) : Bool := chars_lt a.data b.data

/-- Python `a <= b` on strings (total order, so `a <= b` iff not `b < a`). -/
def pystr_le (a b : String) : Bool := !(pystr_lt b a)

/-! ### transformer.py: `__internal__.get_needed_files` (lines 29-46) -/

/-- Embedding of `get_needed_files`: scan the file list, remembering the last
name that ends with the raw-data suffix. -/
def get_needed_files (source_files : List String) : Option String :=
  source_files.foldl
    (fun raw_file one_file =>
      if one_file.endsWith "_raw" then some one_file else raw_file)
    none

/-! ### transformer.py: `__internal__.get_camera_info` (lines 202-242) -/

/-- Embedding of `get_camera_info`.  The result tuple is
(camera_type, num_spectral_bands, num_bands_irradiance, image_scanning_time),
in the order of the `return` statement at line 242; `none` models Python
`None`.  Date strings are compared with the Python lexicographic order. -/
def get_camera_info (sensor : String) (data_date : String) :
    String × Option Nat × Option Nat × Option Nat :=
  if sensor == "VNIR" then
    if pystr_lt data_date "2018-08-18" then
      ("vnir_old", some 955, some 1024, some 540)
    else if pystr_le "2018-08-18" data_date && pystr_lt data_date "2019-02-26" then
      ("vnir_middle", some 939, some 1024, some 540)
    else
      ("vnir_new", some 939, some 3648, some 210)
  else
    if pystr_lt data_date "2019-02-26" then
      ("swir_old_middle", none, none, none)
    else
      ("swir_new", some 275, some 512, some 210)

/-! ### Numpy array model -/

/-- A 3-D numpy float array, modelled over ℚ. -/
abbrev Cube := List (List (List ℚ))

/-- numpy rollaxis(a, 2, 0) on an array of shape rows × cols × bands:
result[b][r][c] = a[r][c][b].  The band count is read off the first cell,
matching the shape of a rectangular numpy array. -/
def rollaxis20 (a : Cube) : Cube :=
  (List.range (((a.getD 0 []).getD 0 []).length)).map
    (fun b => a.map (fun row => row.map (fun cell => cell.getD b 0)))

/-- Element-wise division of a cube by a reference row broadcast along the
trailing (band) axis, as in numpy img_dn / irrad2dn. -/
def divide_cube (img_dn : Cube) (ref : List ℚ) : Cube :=
  img_dn.map (fun row => row.map (fun cell => List.zipWith (· / ·) cell ref))

/-- transformer.py lines 343-351: irrad2dn = (gain * projected) + bias,
reflectance = raw / irrad2dn, then the band axis is rolled to the front. -/
def reflectance_step (img_dn : Cube) (loaded_gain test_irridance_re loaded_bias : List ℚ) :
    Cube :=
  rollaxis20 (divide_cube img_dn
    (List.zipWith (· + ·) (List.zipWith (· * ·) loaded_gain test_irridance_re) loaded_bias))

/-- Index a cube at (i, j, k), with 0 as out-of-bounds default. -/
def getD3 (a : Cube) (i j k : Nat) : ℚ := ((a.getD i []).getD j []).getD k 0

/-! ### netCDF model: `__internal__.update_netcdf` (transformer.py lines 138-199) -/

/-- A stored array cell: a numeric value, or the not-a-number sentinel that
`update_netcdf` writes into band slots with no calibration coverage. -/
inductive Val where
  | num (q : ℚ)
  | nan
deriving DecidableEq, Repr

/-- Computed reflectance data as stored values. -/
def valCube (a : Cube) : List (List (List Val)) :=
  a.map (fun row => row.map (fun cell => cell.map Val.num))

/-- numpy basic slice assignment v[lo:hi] = src along the leading axis, for a
source whose leading extent matches the slice. -/
def slice_assign {α : Type} [Inhabited α] (v : List α) (lo hi : Nat) (src : List α) :
    List α :=
  (List.range v.length).map
    (fun i =>
      if lo ≤ i ∧ i < hi then src.getD (i - lo) (v.getD i default) else v.getD i default)

/-- numpy v[lo:] = nan along the leading axis: every cell of every slice from
lo on becomes the not-a-number sentinel, shapes preserved. -/
def nan_fill_from (v : List (List (List Val))) (lo : Nat) : List (List (List Val)) :=
  (List.range v.length).map
    (fun i =>
      if lo ≤ i then (v.getD i []).map (fun row => row.map (fun _ => Val.nan))
      else v.getD i [])

/-- transformer.py lines 172-191: writing the computed data into the rfl_img
variable.  For the two legacy camera generations the data is written into band
slots [0, 679) or [0, 662) and the remaining slots are set to not-a-number;
for every other generation the whole extent is assigned. -/
def rfl_img_write (old : List (List (List Val))) (rfl_data : Cube) (camera_type : String) :
    List (List (List Val)) :=
  if camera_type == "vnir_old" then
    nan_fill_from (slice_assign old 0 679 (valCube rfl_data)) 679
  else if camera_type == "vnir_middle" then
    nan_fill_from (slice_assign old 0 662 (valCube rfl_data)) 662
  else
    slice_assign old 0 old.length (valCube rfl_data)

/-- A netCDF variable: name, datatype tag, dimension names, attribute map
(attribute values modelled as strings) and stored data. -/
structure NVariable where
  name : String
  datatype : String
  dims : List String
  attrs : List (String × String)
  data : List (List (List Val))
deriving DecidableEq, Repr

/-- A netCDF dataset: global attribute map, dimensions (size `none` models an
unlimited dimension) and variables. -/
structure Dataset where
  globalAttrs : List (String × String)
  dimensions : List (String × Option Nat)
  vars : List NVariable  -- netCDF "variables" (that word is reserved in Lean)
deriving DecidableEq, Repr

/-- transformer.py lines 163-194, handling of one copied variable: the new
variable keeps the datatype and dimensions; when a _FillValue attribute is
present it is removed from the generic attribute copy and passed through the
explicit fill-value creation parameter, which makes the created variable carry
it as an attribute again; data is copied verbatim except for rfl_img, which
receives the computed data through `rfl_img_write`. -/
def copy_variable (rfl_data : Cube) (camera_type : String) (v : NVariable) : NVariable :=
  let fill_value := List.lookup "_FillValue" v.attrs
  let var_dict :=
    match fill_value with
    | some _ => v.attrs.filter (fun kv => kv.1 != "_FillValue")
    | none => v.attrs
  { name := v.name
    datatype := v.datatype
    dims := v.dims
    attrs :=
      (match fill_value with
       | some fv => [("_FillValue", fv)]
       | none => []) ++ var_dict
    data := if v.name != "rfl_img" then v.data else rfl_img_write v.data rfl_data camera_type }

/-- transformer.py lines 151-199 (`update_netcdf`): the new dataset receives
all global attributes, all dimensions (an unlimited dimension is re-created as
unlimited), and every variable except Google_Map_View; when the source has no
rfl_img variable a fresh scalar one is created and assigned the computed data
(the Python assignment into the variables dictionary is modelled as a data
write). -/
def update_netcdf (src : Dataset) (rfl_data : Cube) (camera_type : String) : Dataset :=
  let copied :=
    (src.vars.filter (fun v => v.name != "Google_Map_View")).map
      (copy_variable rfl_data camera_type)
  { globalAttrs := src.globalAttrs
    dimensions := src.dimensions.map (fun d => (d.1, d.2))
    vars :=
      if src.vars.any (fun v => v.name == "rfl_img") then copied
      else copied ++ [{ name := "rfl_img", datatype := "f4", dims := [],
                        attrs := [], data := valCube rfl_data }] }

/-! ### Python character-string helpers -/

/-- Python str.replace with single-character pattern and replacement. -/
def replaceChar (c d : Char) (s : List Char) : List Char :=
  s.map (fun x => if x = c then d else x)

/-- Python str.replace of a single character by the empty string. -/
def removeChar (c : Char) (s : List Char) : List Char :=
  s.filter (fun x => x != c)

/-- Python str.split with an explicit single-character separator: splits at
every occurrence, keeping empty pieces. -/
def splitOnChar (c : Char) : List Char → List (List Char)
  | [] => [[]]
  | x :: xs =>
    let r := splitOnChar c xs
    if x = c then [] :: r
    else
      match r with
      | [] => [[x]]
      | h :: t => (x :: h) :: t

/-- Python int() on a nonnegative digit string; none models the ValueError
raised on a malformed literal. -/
def parseNatDigits (cs : List Char) : Option Nat :=
  if cs.isEmpty then none
  else
    cs.foldl
      (fun acc c =>
        acc.bind (fun n => if c.isDigit then some (n * 10 + (c.toNat - 48)) else none))
      (some 0)

/-! ### transformer.py: `__internal__.get_local_time` (lines 48-60) -/

/-- Embedding of `get_local_time`: the first eight characters after the letter
T when present, the whole string otherwise. -/
def get_local_time (timestamp : List Char) : List Char :=
  if timestamp.contains 'T' then ((splitOnChar 'T' timestamp).getD 1 []).take 8
  else timestamp

/-- transformer.py line 313: the image time as an integer, colons removed
(12:38:49 becomes 123849); none models the int() ValueError. -/
def image_time_of (timestamp : List Char) : Option Int :=
  (parseNatDigits (removeChar ':' (get_local_time timestamp))).map (fun n => (n : Int))

/-! ### transformer.py: `__internal__.irradiance_time_extractor` (lines 87-136) -/

/-- transformer.py lines 120-122: timestamp munging of one logger record
(2016.04.26-12:38:49 becomes 123849): dots and dashes become spaces, colons
are dropped, and the fourth space-delimited token is parsed as an integer. -/
def env_time_of (time_current : List Char) : Option Int :=
  let array_time :=
    splitOnChar ' ' (removeChar ':' (replaceChar '-' ' ' (replaceChar '.' ' ' time_current)))
  (parseNatDigits (array_time.getD 3 [])).map (fun n => (n : Int))

/-- One record of an environment logger file: a timestamp and the spectrum
fields.  `spectrometers` models the nested multi-sensor object as the pair
(NIRQuest-512 spectrum, FLAME-T spectrum); `spectrometer` is the legacy flat
field read when the nested object is absent. -/
structure EnvReading where
  timestamp : List Char
  spectrometers : Option (List ℚ × List ℚ)
  spectrometer : List ℚ
deriving Repr, Inhabited

/-- transformer.py lines 126-132: the spectrum stored for record idx.  When
the nested object is present the swir_new generation reads the NIRQuest-512
spectrum of record 0 (the source indexes the first record, not idx, at line
128) and every other generation reads the FLAME-T spectrum of record idx;
otherwise the flat field of record idx is read.  The empty list stands for the
KeyError Python would raise if record 0 had no nested object here. -/
def record_spectrum (camera_type : String) (sensor_reading : List EnvReading)
    (idx : Nat) : List ℚ :=
  match (sensor_reading.getD idx default).spectrometers with
  | some s =>
    if camera_type == "swir_new" then
      (((sensor_reading.getD 0 default).spectrometers).map Prod.fst).getD []
    else s.2
  | none => (sensor_reading.getD idx default).spectrometer

/-- transformer.py lines 118-136 (`irradiance_time_extractor`): per-record
times and the stacked spectra matrix. -/
def irradiance_time_extractor (camera_type : String) (sensor_reading : List EnvReading) :
    List (Option Int) × List (List ℚ) :=
  (sensor_reading.map (fun r => env_time_of r.timestamp),
   (List.range sensor_reading.length).map (record_spectrum camera_type sensor_reading))

/-! ### Temporal matching (transformer.py lines 308-322) -/

/-- numpy argmin: the index of the first occurrence of the minimum; none on an
empty array, where numpy raises ValueError. -/
def np_argmin : List ℚ → Option Nat
  | [] => none
  | x :: xs =>
    match np_argmin xs with
    | none => some 0
    | some j => if xs.getD j 0 < x then some (j + 1) else some 0

/-- transformer.py lines 318-320: the absolute difference between the image
time and one logger time. -/
def abs_diff (image_time t : Int) : ℚ := ((image_time - t).natAbs : ℚ)

/-- transformer.py line 321: index of the logger record closest in time. -/
def matched_index (image_time : Int) (envlog_tot_time : List Int) : Option Nat :=
  np_argmin (envlog_tot_time.map (abs_diff image_time))

/-- transformer.py line 322: the Python row slice
envlog_spectra[ind : ind + num_irridiance_record - 1], which for a positive
record count takes num_irridiance_record - 1 rows. -/
def mean_slice (envlog_spectra : List (List ℚ)) (ind num_irridiance_record : Nat) :
    List (List ℚ) :=
  (envlog_spectra.drop ind).take (num_irridiance_record - 1)

/-- numpy mean over axis 0: the column-wise mean of the rows. -/
def colMean (rows : List (List ℚ)) : List ℚ :=
  match rows with
  | [] => []
  | r0 :: _ =>
    (List.range r0.length).map
      (fun j => (rows.map (fun r => r.getD j 0)).sum / (rows.length : ℚ))

/-- numpy resize of a vector to one row of n entries: cyclic repetition or
truncation.  -/
def np_resize_row (l : List ℚ) (n : Nat) : List ℚ :=
  (List.range n).map (fun i => l.getD (i % l.length) 0)

/-- numpy fancy indexing mean_spectrum[best_matched_index] (line 328). -/
def gather (l : List ℚ) (idxs : List Nat) : List ℚ :=
  idxs.map (fun i => l.getD i 0)

/-- transformer.py lines 261 and 309: `apply_calibration` unpacks the result
of get_camera_info as (camera_type, num_irradiance_bands, image_scanning_time,
num_spectral_bands) — an order that differs from the return order of
get_camera_info — and sets num_irridiance_record to
int(image_scanning_time / 5) on the local image_scanning_time so obtained. -/
def calib_num_irridiance_record (sensor data_date : String) : Nat :=
  match get_camera_info sensor data_date with
  | (_camera_type, _num_irradiance_bands, image_scanning_time, _num_spectral_bands) =>
    image_scanning_time.getD 0 / 5

/-- The per-camera calibration reference arrays loaded from fixed disk
locations (transformer.py lines 290-292, 327, 334-335), passed in as data. -/
structure Coefficients where
  best_matched_index : List Nat
  bias_coeff : List ℚ
  gain_coeff : List ℚ
deriving Repr

/-! ### transformer.py: `__internal__.apply_calibration` (lines 244-370) -/

/-- Embedding of `apply_calibration` with the file reads made explicit: the
aggregated logger series (times and stacked spectra) and the coefficient
arrays are parameters, and the rewritten dataset is the result.  For
swir_old_middle the raw cube is rolled and written directly; otherwise the
tuple of get_camera_info is unpacked in the order of source line 261, the mean
ambient spectrum is computed around the record matched to the image time,
projected through the band-match index, resized, truncated for the legacy
generations, and applied.  The error strings model the Python exceptions
(ValueError from int() on a malformed timestamp at line 313, ValueError from
argmin of an empty sequence at line 321). -/
def apply_calibration (sensor data_date : String) (timestamp : List Char)
    (envlog_tot_time : List Int) (envlog_spectra : List (List ℚ))
    (coeffs : Coefficients) (img_dn : Cube) (src : Dataset) : Except String Dataset :=
  match get_camera_info sensor data_date with
  | (camera_type, num_irradiance_bands, image_scanning_time, _num_spectral_bands) =>
    if camera_type == "swir_old_middle" then
      Except.ok (update_netcdf src (rollaxis20 img_dn) camera_type)
    else
      let num_irridiance_record := image_scanning_time.getD 0 / 5
      match image_time_of timestamp with
      | none => Except.error "invalid literal for int"
      | some image_time =>
        match matched_index image_time envlog_tot_time with
        | none => Except.error "attempt to get argmin of an empty sequence"
        | some ind_closet_time =>
          let mean_spectrum :=
            colMean (mean_slice envlog_spectra ind_closet_time num_irridiance_record)
          let test_irridance := gather mean_spectrum coeffs.best_matched_index
          let test_irridance_re := np_resize_row test_irridance (num_irradiance_bands.getD 0)
          let (test_irridance_re, img_dn) :=
            if camera_type == "vnir_old" then
              (test_irridance_re.take 679,
               img_dn.map (fun row => row.map (fun cell => cell.take 679)))
            else if camera_type == "vnir_middle" then
              (test_irridance_re.take 662,
               img_dn.map (fun row => row.map (fun cell => cell.take 662)))
            else (test_irridance_re, img_dn)
          Except.ok (update_netcdf src
            (reflectance_step img_dn coeffs.gain_coeff test_irridance_re coeffs.bias_coeff)
            camera_type)

/-! ### transformer.py: `perform_process` calibration wrapper (lines 416-435) -/

/-- The structured result returned to the plugin host. -/
structure ProcessResult where
  code : Int
  error : Option String
deriving DecidableEq, Repr

/-- transformer.py lines 426-435: the orchestrator wraps apply_calibration in
try/except and converts any exception into the structured code -1004 result
with the exception message; on success the rewritten dataset exists and the
code is 0. -/
def perform_process_calibration (r : Except String Dataset) : ProcessResult × Option Dataset :=
  match r with
  | Except.error msg =>
    ({ code := -1004,
       error := some ("Exception caught while applying calibration: " ++ msg) }, none)
  | Except.ok ds => ({ code := 0, error := none }, some ds)

end Hyperspectral

namespace Hyperspectral

/-! ### List indexing helper lemmas -/

theorem getD_of_lt {α : Type} (l : List α) (i : Nat) (h : i < l.length) (d d' : α) :
    l.getD i d = l.getD i d' := by
  rw [List.getD_eq_getElem?_getD, List.getD_eq_getElem?_getD, List.getElem?_eq_getElem h]
  rfl

theorem getD_mem {α : Type} (l : List α) (i : Nat) (h : i < l.length) (d : α) :
    l.getD i d ∈ l := by
  rw [List.getD_eq_getElem?_getD, List.getElem?_eq_getElem h]
  exact List.getElem_mem h

theorem getD_map_of_lt {α β : Type} (f : α → β) (l : List α) (i : Nat)
    (h : i < l.length) (d : α) (d' : β) :
    (l.map f).getD i d' = f (l.getD i d) := by
  rw [List.getD_eq_getElem?_getD, List.getElem?_map, List.getElem?_eq_getElem h,
    List.getD_eq_getElem?_getD, List.getElem?_eq_getElem h]
  rfl

theorem getD_range_map {β : Type} (f : Nat → β) (n i : Nat) (h : i < n) (d : β) :
    ((List.range n).map f).getD i d = f i := by
  rw [List.getD_eq_getElem?_getD, List.getElem?_map, List.getElem?_range h]
  rfl

theorem zipWith_getD_of_lt (f : ℚ → ℚ → ℚ) :
    ∀ (l₁ l₂ : List ℚ) (i : Nat), i < l₁.length → i < l₂.length →
      (List.zipWith f l₁ l₂).getD i 0 = f (l₁.getD i 0) (l₂.getD i 0) := by
  intro l₁
  induction l₁ with
  | nil => intro l₂ i h₁ _; simp at h₁
  | cons a as ih =>
    intro l₂ i h₁ h₂
    cases l₂ with
    | nil => simp at h₂
    | cons b bs =>
      cases i with
      | zero => simp
      | succ j =>
        simp only [List.zipWith_cons_cons, List.getD_cons_succ]
        exact ih bs j (by simpa using h₁) (by simpa using h₂)

/-! ### Theorems for claims C4, C9, C10 -/

/-- Claim C4: profile resolution is a total function, and each documented
boundary date maps to the newer bracket (inclusive lower bound): VNIR at
2018-08-18 resolves to vnir_middle, VNIR at 2019-02-26 to vnir_new, SWIR at
2019-02-26 to swir_new, and SWIR at any earlier date to the swir_old_middle
profile with all nullable fields null.  Determinism and totality hold because
`get_camera_info` is a Lean function. -/
theorem C4_profile_resolution_boundaries :
    get_camera_info "VNIR" "2018-08-18" = ("vnir_middle", some 939, some 1024, some 540) ∧
    get_camera_info "VNIR" "2019-02-26" = ("vnir_new", some 939, some 3648, some 210) ∧
    get_camera_info "SWIR" "2019-02-26" = ("swir_new", some 275, some 512, some 210) ∧
    ∀ d : String, pystr_lt d "2019-02-26" = true →
      get_camera_info "SWIR" d = ("swir_old_middle", none, none, none) := by
  refine ⟨by decide, by decide, by decide, ?_⟩
  intro d hd
  simp only [get_camera_info]
  rw [if_neg (by decide), if_pos hd]

/-- Witness for C4: SWIR on 2017-01-01 precedes the threshold and resolves to
the calibration-free profile. -/
theorem C4_profile_resolution_boundaries_witness :
    get_camera_info "SWIR" "2017-01-01" = ("swir_old_middle", none, none, none) :=
  C4_profile_resolution_boundaries.2.2.2 "2017-01-01" (by decide)

/-- Claim C9 counterexample: for the unsupported sensor value FOO, profile
resolution does not fail; it returns the full swir_new profile (the claim says
it fails with InvalidArgument rather than returning a profile). -/
theorem C9_counterexample_unknown_sensor_returns_profile :
    get_camera_info "FOO" "2020-01-01" = ("swir_new", some 275, some 512, some 210) := by
  decide

/-- Claim C9 amended: profile resolution never fails; every sensor value other
than VNIR is treated as SWIR (the default branch), yielding the same profile
as SWIR for that date.  Unknown sensor values are only rejected by the
out-of-scope command-line argument parser. -/
theorem C9_amended_unknown_sensor_defaults_to_swir
    (sensor date : String) (h : sensor ≠ "VNIR") :
    get_camera_info sensor date = get_camera_info "SWIR" date := by
  have hs : (sensor == "VNIR") = false := by simpa using h
  simp [get_camera_info, hs]

/-- Witness for the amended C9: the sensor value FOO resolves exactly like
SWIR. -/
theorem C9_amended_unknown_sensor_defaults_to_swir_witness :
    get_camera_info "FOO" "2020-01-01" = get_camera_info "SWIR" "2020-01-01" :=
  C9_amended_unknown_sensor_defaults_to_swir "FOO" "2020-01-01" (by decide)

/-- Auxiliary: the fold in `get_needed_files` returns the last match of the
filter when one exists, and the accumulator otherwise. -/
theorem get_needed_files_foldl (files : List String) :
    ∀ acc : Option String,
      files.foldl
        (fun raw_file one_file =>
          if one_file.endsWith "_raw" then some one_file else raw_file) acc
      = ((files.filter (fun f => f.endsWith "_raw")).getLast?).elim acc some := by
  induction files with
  | nil => intro acc; simp
  | cons f fs ih =>
    intro acc
    simp only [List.foldl_cons, List.filter_cons]
    by_cases hf : f.endsWith "_raw"
    · rw [if_pos hf, ih, if_pos hf, List.getLast?_cons]
      cases h : (fs.filter (fun f => f.endsWith "_raw")).getLast? with
      | none => simp [h]
      | some x => simp [h]
    · rw [if_neg hf, ih]
      simp [hf]

/-- Claim C10: the raw-file selection returns the last element of the list
whose name ends with the `_raw` suffix, and `none` when no element does. -/
theorem C10_get_needed_files_last_raw (files : List String) :
    get_needed_files files
      = (files.filter (fun f => f.endsWith "_raw")).getLast? := by
  rw [get_needed_files, get_needed_files_foldl files none]
  cases h : (files.filter (fun f => f.endsWith "_raw")).getLast? <;> simp

/-- Claim C1: for every raw digital-number cube and gain, projected-spectrum
and bias arrays of matching band length, the computed output equals raw_dn
divided element-wise by (gain * projected_spectrum + bias), with axes
reordered so that the spectral band is the leading dimension. -/
theorem C1_reflectance_elementwise (img_dn : Cube) (gain proj bias : List ℚ)
    (n cols : Nat)
    (hg : gain.length = n) (hp : proj.length = n) (hb : bias.length = n)
    (hrow : ∀ row ∈ img_dn, row.length = cols)
    (hcell : ∀ row ∈ img_dn, ∀ cell ∈ row, cell.length = n) :
    ∀ b r c, b < n → r < img_dn.length → c < cols →
      getD3 (reflectance_step img_dn gain proj bias) b r c
        = getD3 img_dn r c b / (gain.getD b 0 * proj.getD b 0 + bias.getD b 0) := by
  intro b r c hbn hr hc
  set irrad2dn :=
    List.zipWith (· + ·) (List.zipWith (· * ·) gain proj) bias with hirr
  have hgplen : (List.zipWith (· * ·) gain proj).length = n := by
    rw [List.length_zipWith, hg, hp]; exact Nat.min_self n
  have hirrlen : irrad2dn.length = n := by
    rw [hirr, List.length_zipWith, hgplen, hb]; exact Nat.min_self n
  have hirrb : irrad2dn.getD b 0 = gain.getD b 0 * proj.getD b 0 + bias.getD b 0 := by
    rw [hirr,
      zipWith_getD_of_lt _ _ _ b (by rw [hgplen]; exact hbn) (by rw [hb]; exact hbn),
      zipWith_getD_of_lt _ _ _ b (by rw [hg]; exact hbn) (by rw [hp]; exact hbn)]
  have h0r : (0 : Nat) < img_dn.length := Nat.lt_of_lt_of_le (Nat.zero_lt_succ r) hr
  have hrow0 : img_dn.getD 0 [] ∈ img_dn := getD_mem _ 0 h0r _
  have hrowr : img_dn.getD r [] ∈ img_dn := getD_mem _ r hr _
  have hcols0 : (img_dn.getD 0 []).length = cols := hrow _ hrow0
  have hcolsr : (img_dn.getD r []).length = cols := hrow _ hrowr
  have h0c : (0 : Nat) < (img_dn.getD 0 []).length := by
    rw [hcols0]; exact Nat.lt_of_lt_of_le (Nat.zero_lt_succ c) hc
  have hrc : c < (img_dn.getD r []).length := by rw [hcolsr]; exact hc
  have hcell00 : ((img_dn.getD 0 []).getD 0 []).length = n :=
    hcell _ hrow0 _ (getD_mem _ 0 h0c _)
  have hcellrc : ((img_dn.getD r []).getD c []).length = n :=
    hcell _ hrowr _ (getD_mem _ c hrc _)
  -- the divided cube and its band count
  set D := divide_cube img_dn irrad2dn with hD
  have hDlen : D.length = img_dn.length := by rw [hD, divide_cube, List.length_map]
  have hD0 : D.getD 0 []
      = (img_dn.getD 0 []).map (fun cell => List.zipWith (· / ·) cell irrad2dn) := by
    rw [hD, divide_cube]; exact getD_map_of_lt _ _ 0 h0r [] []
  have hD00 : (D.getD 0 []).getD 0 []
      = List.zipWith (· / ·) ((img_dn.getD 0 []).getD 0 []) irrad2dn := by
    rw [hD0]; exact getD_map_of_lt _ _ 0 h0c [] []
  have hnb : ((D.getD 0 []).getD 0 []).length = n := by
    rw [hD00, List.length_zipWith, hcell00, hirrlen]; exact Nat.min_self n
  have hroll : reflectance_step img_dn gain proj bias = rollaxis20 D := by
    rw [reflectance_step, ← hirr, ← hD]
  have hb' : b < ((D.getD 0 []).getD 0 []).length := by rw [hnb]; exact hbn
  have hrollb : (rollaxis20 D).getD b []
      = D.map (fun row => row.map (fun cell => cell.getD b 0)) := by
    rw [rollaxis20]; exact getD_range_map _ _ b hb' []
  have hr' : r < D.length := by rw [hDlen]; exact hr
  have hstep2 : (D.map (fun row => row.map (fun cell => cell.getD b 0))).getD r []
      = (D.getD r []).map (fun cell => cell.getD b 0) := getD_map_of_lt _ _ r hr' [] []
  have hDr : D.getD r []
      = (img_dn.getD r []).map (fun cell => List.zipWith (· / ·) cell irrad2dn) := by
    rw [hD, divide_cube]; exact getD_map_of_lt _ _ r hr [] []
  have hDrlen : (D.getD r []).length = cols := by rw [hDr, List.length_map]; exact hcolsr
  have hc' : c < (D.getD r []).length := by rw [hDrlen]; exact hc
  have hstep3 : ((D.getD r []).map (fun cell => cell.getD b 0)).getD c 0
      = ((D.getD r []).getD c []).getD b 0 := getD_map_of_lt _ _ c hc' [] 0
  have hDrc : (D.getD r []).getD c []
      = List.zipWith (· / ·) ((img_dn.getD r []).getD c []) irrad2dn := by
    rw [hDr]; exact getD_map_of_lt _ _ c hrc [] []
  have hbcell : b < ((img_dn.getD r []).getD c []).length := by rw [hcellrc]; exact hbn
  have hbirr : b < irrad2dn.length := by rw [hirrlen]; exact hbn
  calc getD3 (reflectance_step img_dn gain proj bias) b r c
      = (((rollaxis20 D).getD b []).getD r []).getD c 0 := by rw [getD3, hroll]
    _ = ((D.map (fun row => row.map (fun cell => cell.getD b 0))).getD r []).getD c 0 := by
        rw [hrollb]
    _ = ((D.getD r []).map (fun cell => cell.getD b 0)).getD c 0 := by rw [hstep2]
    _ = ((D.getD r []).getD c []).getD b 0 := hstep3
    _ = (List.zipWith (· / ·) ((img_dn.getD r []).getD c []) irrad2dn).getD b 0 := by
        rw [hDrc]
    _ = ((img_dn.getD r []).getD c []).getD b 0 / irrad2dn.getD b 0 :=
        zipWith_getD_of_lt _ _ _ b hbcell hbirr
    _ = getD3 img_dn r c b / (gain.getD b 0 * proj.getD b 0 + bias.getD b 0) := by
        rw [getD3, hirrb]

/-- Witness for C1: a 2 by 2 by 3 cube of raw value 4 with gain 1, bias 0 and
projected spectrum 2 yields reflectance 2 in the output cell (band 2, row 1,
column 0) after the axis reorder. -/
theorem C1_reflectance_elementwise_witness :
    getD3 (reflectance_step [[[4, 4, 4], [4, 4, 4]], [[4, 4, 4], [4, 4, 4]]]
      [1, 1, 1] [2, 2, 2] [0, 0, 0]) 2 1 0 = 2 := by
  have h := C1_reflectance_elementwise
    [[[4, 4, 4], [4, 4, 4]], [[4, 4, 4], [4, 4, 4]]] [1, 1, 1] [2, 2, 2] [0, 0, 0]
    3 2 rfl rfl rfl (by decide) (by decide) 2 1 0 (by decide) (by decide) (by decide)
  rw [h]
  norm_num [getD3]

/-! ### Helper lemmas for the netCDF model -/

theorem getElem_eq_getD {α : Type} [Inhabited α] (l : List α) (i : Nat) (h : i < l.length) :
    l[i] = l.getD i default := by
  rw [List.getD_eq_getElem?_getD, List.getElem?_eq_getElem h]
  rfl

theorem slice_assign_length {α : Type} [Inhabited α] (v : List α) (lo hi : Nat)
    (src : List α) : (slice_assign v lo hi src).length = v.length := by
  rw [slice_assign, List.length_map, List.length_range]

theorem nan_fill_from_length (v : List (List (List Val))) (lo : Nat) :
    (nan_fill_from v lo).length = v.length := by
  rw [nan_fill_from, List.length_map, List.length_range]

theorem slice_assign_getD {α : Type} [Inhabited α] (v : List α) (lo hi : Nat)
    (src : List α) (i : Nat) (h : i < v.length) :
    (slice_assign v lo hi src).getD i default
      = if lo ≤ i ∧ i < hi then src.getD (i - lo) (v.getD i default)
        else v.getD i default := by
  rw [slice_assign]
  exact getD_range_map _ _ i h default

theorem nan_fill_from_getD (v : List (List (List Val))) (lo i : Nat) (h : i < v.length) :
    (nan_fill_from v lo).getD i []
      = if lo ≤ i then (v.getD i []).map (fun row => row.map (fun _ => Val.nan))
        else v.getD i [] := by
  rw [nan_fill_from]
  exact getD_range_map _ _ i h []

theorem lookup_filter_ne (l : List (String × String)) (key k0 : String) (h : key ≠ k0) :
    List.lookup key (l.filter (fun kv => kv.1 != k0)) = List.lookup key l := by
  induction l with
  | nil => rfl
  | cons kv t ih =>
    obtain ⟨a, b⟩ := kv
    by_cases ha : a = k0
    · subst ha
      have hk : (key == a) = false := by simpa using h
      simp [List.filter_cons, List.lookup, hk, ih]
    · have hne : (a != k0) = true := by simpa using ha
      simp only [List.filter_cons, hne, if_true, List.lookup]
      cases hke : (key == a) with
      | true => rfl
      | false => exact ih

/-- Claim C2: the rewritten reflectance variable keeps the extent of the
template variable; for vnir_old (resp. vnir_middle) the computed data lands
exactly in band slots [0, 679) (resp. [0, 662)) and every later slot becomes
an all-not-a-number slice of the template slice's shape; for every other
camera generation the full computed array is written across the whole
extent. -/
theorem C2_legacy_band_truncation (old : List (List (List Val))) (rfl_data : Cube) :
    (∀ ct : String, (rfl_img_write old rfl_data ct).length = old.length) ∧
    (rfl_data.length = 679 →
      ∀ i, i < old.length →
        (rfl_img_write old rfl_data "vnir_old").getD i []
          = if i < 679 then (valCube rfl_data).getD i []
            else (old.getD i []).map (fun row => row.map (fun _ => Val.nan))) ∧
    (rfl_data.length = 662 →
      ∀ i, i < old.length →
        (rfl_img_write old rfl_data "vnir_middle").getD i []
          = if i < 662 then (valCube rfl_data).getD i []
            else (old.getD i []).map (fun row => row.map (fun _ => Val.nan))) ∧
    (∀ ct : String, ct ≠ "vnir_old" → ct ≠ "vnir_middle" →
      rfl_data.length = old.length →
      rfl_img_write old rfl_data ct = valCube rfl_data) := by
  have hvc : (valCube rfl_data).length = rfl_data.length := by
    rw [valCube, List.length_map]
  have hlegacy : ∀ cutoff : Nat, rfl_data.length = cutoff →
      ∀ i, i < old.length →
        (nan_fill_from (slice_assign old 0 cutoff (valCube rfl_data)) cutoff).getD i []
          = if i < cutoff then (valCube rfl_data).getD i []
            else (old.getD i []).map (fun row => row.map (fun _ => Val.nan)) := by
    intro cutoff hlen i hi
    have hsa_len : (slice_assign old 0 cutoff (valCube rfl_data)).length = old.length :=
      slice_assign_length _ _ _ _
    have hsa : (slice_assign old 0 cutoff (valCube rfl_data)).getD i []
        = if 0 ≤ i ∧ i < cutoff then (valCube rfl_data).getD (i - 0) (old.getD i [])
          else old.getD i [] :=
      slice_assign_getD old 0 cutoff (valCube rfl_data) i hi
    rw [nan_fill_from_getD _ _ i (by rw [hsa_len]; exact hi), hsa]
    by_cases hcut : i < cutoff
    · have h1 : ¬ cutoff ≤ i := by omega
      have h2 : (0 ≤ i ∧ i < cutoff) := ⟨Nat.zero_le i, hcut⟩
      rw [if_pos h2, if_neg h1, if_pos hcut]
      have : i - 0 = i := by omega
      rw [this]
      exact getD_of_lt _ i (by rw [hvc, hlen]; exact hcut) _ _
    · have h1 : cutoff ≤ i := by omega
      have h2 : ¬ (0 ≤ i ∧ i < cutoff) := by omega
      rw [if_pos h1, if_neg h2, if_neg hcut]
  refine ⟨?_, ?_, ?_, ?_⟩
  · intro ct
    rw [rfl_img_write]
    by_cases h1 : (ct == "vnir_old") = true
    · rw [if_pos h1, nan_fill_from_length, slice_assign_length]
    · rw [if_neg h1]
      by_cases h2 : (ct == "vnir_middle") = true
      · rw [if_pos h2, nan_fill_from_length, slice_assign_length]
      · rw [if_neg h2, slice_assign_length]
  · intro hlen i hi
    rw [rfl_img_write, if_pos (by decide)]
    exact hlegacy 679 hlen i hi
  · intro hlen i hi
    rw [rfl_img_write, if_neg (by decide), if_pos (by decide)]
    exact hlegacy 662 hlen i hi
  · intro ct h1 h2 hlen
    have e1 : (ct == "vnir_old") = false := by simpa using h1
    have e2 : (ct == "vnir_middle") = false := by simpa using h2
    rw [rfl_img_write, e1, e2]
    simp only [Bool.false_eq_true, if_false]
    apply List.ext_getElem
    · rw [slice_assign_length, ← hlen, hvc]
    · intro i hi1 hi2
      have hiold : i < old.length := by
        rw [slice_assign_length] at hi1; exact hi1
      rw [getElem_eq_getD _ _ hi1, getElem_eq_getD _ _ hi2,
        slice_assign_getD old 0 old.length (valCube rfl_data) i hiold]
      rw [if_pos ⟨Nat.zero_le i, hiold⟩]
      have h0 : i - 0 = i := by omega
      rw [h0]
      exact getD_of_lt _ i (by rw [hvc, hlen]; exact hiold) _ _

/-- Witness for C2: with a 680-band template variable and 679 bands of
computed data, the vnir_old rewrite leaves the not-a-number sentinel in band
slot 679. -/
theorem C2_legacy_band_truncation_witness :
    (rfl_img_write (List.replicate 680 [[Val.num 0]])
      (List.replicate 679 [[(1 : ℚ)]]) "vnir_old").getD 679 [] = [[Val.nan]] := by
  have h := (C2_legacy_band_truncation (List.replicate 680 [[Val.num 0]])
      (List.replicate 679 [[(1 : ℚ)]])).2.1
    (List.length_replicate 679 _) 679 (by rw [List.length_replicate]; omega)
  rw [h]
  rw [if_neg (by omega)]
  rw [List.getD_eq_getElem?_getD, List.getElem?_replicate, if_pos (by omega)]
  rfl

/-- Claim C7: the rewritten dataset keeps every global attribute, every
dimension (unlimited ones staying unlimited), and every variable except the
excluded Google_Map_View; each copied variable keeps its datatype, dimensions
and attribute map, and every variable other than rfl_img keeps its data
verbatim. -/
theorem C7_rewriter_structural_copy (src : Dataset) (rfl_data : Cube) (camera_type : String) :
    (update_netcdf src rfl_data camera_type).globalAttrs = src.globalAttrs ∧
    (update_netcdf src rfl_data camera_type).dimensions = src.dimensions ∧
    (∀ w ∈ (update_netcdf src rfl_data camera_type).vars, w.name ≠ "Google_Map_View") ∧
    (∀ v ∈ src.vars, v.name ≠ "Google_Map_View" →
      ∃ w ∈ (update_netcdf src rfl_data camera_type).vars,
        w.name = v.name ∧ w.datatype = v.datatype ∧ w.dims = v.dims ∧
        (∀ key, List.lookup key w.attrs = List.lookup key v.attrs) ∧
        (v.name ≠ "rfl_img" → w.data = v.data)) := by
  refine ⟨rfl, ?_, ?_, ?_⟩
  · show src.dimensions.map (fun d => (d.1, d.2)) = src.dimensions
    simp
  · intro w hw
    simp only [update_netcdf] at hw
    have hcop : ∀ u ∈ (src.vars.filter (fun v => v.name != "Google_Map_View")).map
        (copy_variable rfl_data camera_type), u.name ≠ "Google_Map_View" := by
      intro u hu
      obtain ⟨v, hv, rfl⟩ := List.mem_map.mp hu
      have := (List.mem_filter.mp hv).2
      have hne : v.name ≠ "Google_Map_View" := by simpa using this
      simpa [copy_variable] using hne
    by_cases hany : src.vars.any (fun v => v.name == "rfl_img")
    · rw [if_pos hany] at hw
      exact hcop w hw
    · rw [if_neg hany] at hw
      rcases List.mem_append.mp hw with h | h
      · exact hcop w h
      · have hw2 : w = ⟨"rfl_img", "f4", [], [], valCube rfl_data⟩ := by simpa using h
        rw [hw2]
        simp
  · intro v hv hnot
    refine ⟨copy_variable rfl_data camera_type v, ?_, by simp [copy_variable],
      by simp [copy_variable], by simp [copy_variable], ?_, ?_⟩
    · have hmemf : v ∈ src.vars.filter (fun v => v.name != "Google_Map_View") :=
        List.mem_filter.mpr ⟨hv, by simpa using hnot⟩
      have hmemc : copy_variable rfl_data camera_type v ∈
          (src.vars.filter (fun v => v.name != "Google_Map_View")).map
            (copy_variable rfl_data camera_type) :=
        List.mem_map_of_mem _ hmemf
      simp only [update_netcdf]
      by_cases hany : src.vars.any (fun v => v.name == "rfl_img")
      · rw [if_pos hany]; exact hmemc
      · rw [if_neg hany]; exact List.mem_append_left _ hmemc
    · intro key
      simp only [copy_variable]
      cases hfv : List.lookup "_FillValue" v.attrs with
      | none => simp
      | some fv =>
        by_cases hkey : key = "_FillValue"
        · subst hkey
          simp only [List.nil_append, List.singleton_append, List.lookup]
          rw [hfv]
          simp
        · have hne : (key == "_FillValue") = false := by simpa using hkey
          simp only [List.singleton_append, List.lookup, hne]
          exact lookup_filter_ne v.attrs key "_FillValue" hkey
    · intro hname
      have : (v.name != "rfl_img") = true := by simpa using hname
      simp [copy_variable, this]

/-- Witness for C7: a concrete template with a fill-valued variable, the
excluded Google_Map_View variable and an rfl_img variable; the temp variable
survives the rewrite with its data. -/
theorem C7_rewriter_structural_copy_witness :
    ∃ w ∈ (update_netcdf
      { globalAttrs := [("title", "scan")]
        dimensions := [("x", some 2), ("t", none)]
        vars := [{ name := "temp", datatype := "f4", dims := ["x"],
                   attrs := [("_FillValue", "-9")], data := [[[Val.num 3]]] },
                 { name := "Google_Map_View", datatype := "u1", dims := [],
                   attrs := [], data := [] },
                 { name := "rfl_img", datatype := "f4", dims := ["x"],
                   attrs := [], data := [[[Val.num 0]]] }] }
      [[[2]]] "vnir_new").vars,
      w.name = "temp" ∧ w.datatype = "f4" ∧ w.dims = ["x"] ∧
      (∀ key, List.lookup key w.attrs = List.lookup key [("_FillValue", "-9")]) ∧
      ("temp" ≠ "rfl_img" → w.data = [[[Val.num 3]]]) := by
  have h := (C7_rewriter_structural_copy
    { globalAttrs := [("title", "scan")]
      dimensions := [("x", some 2), ("t", none)]
      vars := [{ name := "temp", datatype := "f4", dims := ["x"],
                 attrs := [("_FillValue", "-9")], data := [[[Val.num 3]]] },
               { name := "Google_Map_View", datatype := "u1", dims := [],
                 attrs := [], data := [] },
               { name := "rfl_img", datatype := "f4", dims := ["x"],
                 attrs := [], data := [[[Val.num 0]]] }] }
    [[[2]]] "vnir_new").2.2.2
    { name := "temp", datatype := "f4", dims := ["x"],
      attrs := [("_FillValue", "-9")], data := [[[Val.num 3]]] }
    (by simp) (by decide)
  exact h

/-! ### The argmin specification -/

/-- `np_argmin` on a non-empty list returns the position of the minimum, with
entries before it strictly larger (first occurrence). -/
theorem np_argmin_spec :
    ∀ l : List ℚ, l ≠ [] →
      ∃ i, np_argmin l = some i ∧ i < l.length ∧
        (∀ j, j < l.length → l.getD i 0 ≤ l.getD j 0) ∧
        (∀ j, j < i → l.getD i 0 < l.getD j 0) := by
  intro l
  induction l with
  | nil => intro h; exact absurd rfl h
  | cons x xs ih =>
    intro _
    by_cases hxs : xs = []
    · subst hxs
      refine ⟨0, rfl, by simp, ?_, ?_⟩
      · intro j hj
        have hj0 : j = 0 := by simpa using hj
        subst hj0
        exact le_refl _
      · intro j hj
        exact absurd hj (Nat.not_lt_zero j)
    · obtain ⟨j, hj_eq, hj_lt, hj_min, hj_first⟩ := ih hxs
      have hcomp : np_argmin (x :: xs)
          = if xs.getD j 0 < x then some (j + 1) else some 0 := by
        simp only [np_argmin, hj_eq]
      by_cases hlt : xs.getD j 0 < x
      · refine ⟨j + 1, by rw [hcomp, if_pos hlt], by simpa using Nat.succ_lt_succ hj_lt,
          ?_, ?_⟩
        · intro k hk
          cases k with
          | zero => simpa using le_of_lt hlt
          | succ n =>
            simp only [List.getD_cons_succ]
            exact hj_min n (by simpa using hk)
        · intro k hk
          cases k with
          | zero => simpa using hlt
          | succ n =>
            simp only [List.getD_cons_succ]
            exact hj_first n (by omega)
      · refine ⟨0, by rw [hcomp, if_neg hlt], by simp, ?_, ?_⟩
        · intro k hk
          cases k with
          | zero => exact le_refl _
          | succ n =>
            simp only [List.getD_cons_zero, List.getD_cons_succ]
            exact le_trans (not_lt.mp hlt) (hj_min n (by simpa using hk))
        · intro k hk
          exact absurd hk (Nat.not_lt_zero k)

/-- Claim C8: the Temporal Matcher selects the index of minimum absolute time
difference; ties in absolute difference are broken towards the earliest index
(stable argmin), and a unique exact-match entry is always selected, regardless
of window size (the window does not enter the matching at all). -/
theorem C8_stable_argmin (image_time : Int) (ts : List Int) (h : ts ≠ []) :
    ∃ i, matched_index image_time ts = some i ∧ i < ts.length ∧
      (∀ j, j < ts.length →
        abs_diff image_time (ts.getD i 0) ≤ abs_diff image_time (ts.getD j 0)) ∧
      (∀ j, j < ts.length →
        abs_diff image_time (ts.getD j 0) = abs_diff image_time (ts.getD i 0) → i ≤ j) ∧
      (∀ k, k < ts.length → ts.getD k 0 = image_time →
        (∀ j, j < ts.length → ts.getD j 0 = image_time → j = k) → i = k) := by
  have hmap : (ts.map (abs_diff image_time)) ≠ [] := by simpa using h
  obtain ⟨i, heq, hlt, hmin, hfirst⟩ := np_argmin_spec _ hmap
  rw [List.length_map] at hlt
  have hgd : ∀ j, j < ts.length →
      (ts.map (abs_diff image_time)).getD j 0 = abs_diff image_time (ts.getD j 0) := by
    intro j hj
    exact getD_map_of_lt _ _ j hj 0 0
  refine ⟨i, heq, hlt, ?_, ?_, ?_⟩
  · intro j hj
    have hm := hmin j (by rw [List.length_map]; exact hj)
    rwa [hgd i hlt, hgd j hj] at hm
  · intro j hj habs
    by_contra hcon
    have hji : j < i := by omega
    have hf := hfirst j hji
    rw [hgd i hlt, hgd j hj, habs] at hf
    exact lt_irrefl _ hf
  · intro k hk hkx huniq
    have hzero : abs_diff image_time (ts.getD k 0) = 0 := by
      rw [hkx, abs_diff]
      simp
    have hile : abs_diff image_time (ts.getD i 0) ≤ 0 := by
      have hm := hmin k (by rw [List.length_map]; exact hk)
      rwa [hgd i hlt, hgd k hk, hzero] at hm
    have hge : (0 : ℚ) ≤ abs_diff image_time (ts.getD i 0) := by
      rw [abs_diff]
      exact Nat.cast_nonneg _
    have hiz : (image_time - ts.getD i 0).natAbs = 0 := by
      have h0 : abs_diff image_time (ts.getD i 0) = 0 := le_antisymm hile hge
      rw [abs_diff] at h0
      exact_mod_cast h0
    have hieq : ts.getD i 0 = image_time := by
      have h1 : image_time - ts.getD i 0 = 0 := Int.natAbs_eq_zero.mp hiz
      omega
    exact huniq i hlt hieq

/-- Witness for C8: image time 4 against the series [10, 3, 7]; the matcher
characterization applies at this concrete input (the minimum difference 1
occurs uniquely at index 1). -/
theorem C8_stable_argmin_witness :
    ∃ i, matched_index 4 [10, 3, 7] = some i ∧ i < ([10, 3, 7] : List Int).length ∧
      (∀ j, j < ([10, 3, 7] : List Int).length →
        abs_diff 4 (([10, 3, 7] : List Int).getD i 0)
          ≤ abs_diff 4 (([10, 3, 7] : List Int).getD j 0)) ∧
      (∀ j, j < ([10, 3, 7] : List Int).length →
        abs_diff 4 (([10, 3, 7] : List Int).getD j 0)
          = abs_diff 4 (([10, 3, 7] : List Int).getD i 0) → i ≤ j) ∧
      (∀ k, k < ([10, 3, 7] : List Int).length →
        ([10, 3, 7] : List Int).getD k 0 = 4 →
        (∀ j, j < ([10, 3, 7] : List Int).length →
          ([10, 3, 7] : List Int).getD j 0 = 4 → j = k) → i = k) :=
  C8_stable_argmin 4 [10, 3, 7] (by decide)

/-- Claim C3 (code evaluation): for VNIR on 2019-03-01 the resolved profile is
vnir_new with a 210-second scan, so the claim expects a window of 210 / 5 = 42
rows from the matched index on; the code instead computes
num_irridiance_record = 729 (the misordered unpack at line 261 makes the local
image_scanning_time hold the 3648 irradiance band count) and the Python slice
at line 322 then averages 728 rows. -/
theorem C3_window_size_code_evaluation :
    get_camera_info "VNIR" "2019-03-01" = ("vnir_new", some 939, some 3648, some 210) ∧
    calib_num_irridiance_record "VNIR" "2019-03-01" = 729 ∧
    calib_num_irridiance_record "VNIR" "2019-03-01" ≠ 210 / 5 ∧
    (mean_slice (List.replicate 1000 ([0] : List ℚ)) 0
        (calib_num_irridiance_record "VNIR" "2019-03-01")).length = 728 ∧
    calib_num_irridiance_record "VNIR" "2017-01-01" = 204 ∧
    calib_num_irridiance_record "VNIR" "2017-01-01" ≠ 540 / 5 := by
  refine ⟨by decide, by decide, by decide, ?_, by decide, by decide⟩
  rw [show calib_num_irridiance_record "VNIR" "2019-03-01" = 729 from by decide]
  rw [mean_slice, List.drop_zero, List.length_take, List.length_replicate]
  omega

/-- Claim C5 (code evaluation): for the swir_new generation the extractor
fills every spectrum row from record 0.  With two records whose NIRQuest-512
spectra are [1] and [2], the stacked matrix is [[1], [1]], not the [[1], [2]]
the claim requires; for any other generation with nested records the rows do
come from each record in turn (FLAME-T field), as the second conjunct
shows. -/
theorem C5_swir_new_reads_record_zero :
    (irradiance_time_extractor "swir_new"
      [⟨[], some ([1], [10]), []⟩, ⟨[], some ([2], [20]), []⟩]).2 = [[1], [1]] ∧
    (irradiance_time_extractor "vnir_new"
      [⟨[], some ([1], [10]), []⟩, ⟨[], some ([2], [20]), []⟩]).2 = [[10], [20]] ∧
    ([[1], [1]] : List (List ℚ)) ≠ [[1], [2]] := by
  refine ⟨?_, ?_, ?_⟩
  · rfl
  · rfl
  · intro hcon
    have h2 := congrArg (fun l => (l.getD 1 []).getD 0 0) hcon
    simp at h2

/-- Claim C6: when the aggregated time sequence is empty and the camera
generation requires calibration, apply_calibration fails on the argmin of the
empty difference array before any mean spectrum or output file is produced,
and the orchestrator converts the exception into the structured non-zero
result -1004 with no dataset. -/
theorem C6_empty_series_fails (sensor data_date : String) (timestamp : List Char)
    (envlog_spectra : List (List ℚ)) (coeffs : Coefficients) (img_dn : Cube)
    (src : Dataset)
    (hct : (get_camera_info sensor data_date).1 ≠ "swir_old_middle")
    (htime : (image_time_of timestamp).isSome) :
    apply_calibration sensor data_date timestamp [] envlog_spectra coeffs img_dn src
      = Except.error "attempt to get argmin of an empty sequence" ∧
    (perform_process_calibration
      (apply_calibration sensor data_date timestamp [] envlog_spectra coeffs img_dn src)).1
      = { code := -1004,
          error := some ("Exception caught while applying calibration: "
            ++ "attempt to get argmin of an empty sequence") } ∧
    (perform_process_calibration
      (apply_calibration sensor data_date timestamp [] envlog_spectra coeffs img_dn src)).2
      = none ∧
    (-1004 : Int) ≠ 0 := by
  obtain ⟨image_time, hit⟩ := Option.isSome_iff_exists.mp htime
  have hmain : apply_calibration sensor data_date timestamp [] envlog_spectra coeffs
      img_dn src = Except.error "attempt to get argmin of an empty sequence" := by
    rcases hg : get_camera_info sensor data_date with ⟨ct, nb1, nb2, nb3⟩
    have hctne : (ct == "swir_old_middle") = false := by
      rw [hg] at hct
      simpa using hct
    simp only [apply_calibration, hg, hctne, Bool.false_eq_true, if_false, hit,
      matched_index, List.map_nil, np_argmin]
  refine ⟨hmain, ?_, ?_, by decide⟩
  · rw [hmain]; rfl
  · rw [hmain]; rfl

/-- Witness for C6: a concrete run (VNIR on 2019-03-01, image time 12) with an
empty logger series fails with the argmin error and the -1004 result. -/
theorem C6_empty_series_fails_witness :
    apply_calibration "VNIR" "2019-03-01" ['1', '2'] [] [] ⟨[], [], []⟩ [] ⟨[], [], []⟩
      = Except.error "attempt to get argmin of an empty sequence" ∧
    (perform_process_calibration
      (apply_calibration "VNIR" "2019-03-01" ['1', '2'] [] [] ⟨[], [], []⟩ [] ⟨[], [], []⟩)).1
      = { code := -1004,
          error := some ("Exception caught while applying calibration: "
            ++ "attempt to get argmin of an empty sequence") } ∧
    (perform_process_calibration
      (apply_calibration "VNIR" "2019-03-01" ['1', '2'] [] [] ⟨[], [], []⟩ [] ⟨[], [], []⟩)).2
      = none ∧
    (-1004 : Int) ≠ 0 :=
  C6_empty_series_fails "VNIR" "2019-03-01" ['1', '2'] [] ⟨[], [], []⟩ [] ⟨[], [], []⟩
    (by decide) (by decide)

end Hyperspectral
